import Mathlib

/-!
Shallow embedding of the network RPC layer (src/rpcnet.cpp) of the lux
node: the destination query over the address book, the added-node set
operations, the ban-table operations, the network-active toggle, the
added-node info query and the peer-info rendering.  External collaborators
that the file calls but does not define (address manager, CNode ban
statics, connection manager) are modelled from the spec and marked as such
in their doc comments.
-/

universe u

/-- JSON-ish value tree mirroring UniValue.  Doubles (ping times) are
modelled as rationals: every concrete double value is a rational and the
only operation performed on them here is an exact comparison with zero. -/
inductive JVal where
  | null : JVal
  | str : String → JVal
  | int : Int → JVal
  | rat : ℚ → JVal
  | bool : Bool → JVal
  | arr : List JVal → JVal
  | obj : List (String × JVal) → JVal

/-- UniValue.get_str: succeeds only on a string value. -/
def JVal.get_str : JVal → Option String
  | .str s => some s
  | _ => none

/-- UniValue.get_int64: succeeds only on a numeric value. -/
def JVal.get_int64 : JVal → Option Int
  | .int n => some n
  | _ => none

/-- UniValue.get_bool: succeeds only on a boolean value. -/
def JVal.get_bool : JVal → Option Bool
  | .bool b => some b
  | _ => none

/-- UniValue.isNull. -/
def JVal.isNull : JVal → Bool
  | .null => true
  | _ => false

/-- The keys of an object value, in emission order. -/
def JVal.objKeys : JVal → List String
  | .obj fs => fs.map Prod.fst
  | _ => []

/-- Failure outcomes an RPC handler can raise.  help models the
runtime_error usage-text outcome; typeError models a UniValue get_ type
mismatch; the remaining constructors are the JSONRPCError codes used in
rpcnet.cpp: invalidParams = RPC_INVALID_PARAMS, nodeAlreadyAdded =
RPC_CLIENT_NODE_ALREADY_ADDED, nodeNotAdded = RPC_CLIENT_NODE_NOT_ADDED,
nodeNotConnected = RPC_CLIENT_NODE_NOT_CONNECTED, miscError =
RPC_MISC_ERROR. -/
inductive RpcErr where
  | help : RpcErr
  | typeError : RpcErr
  | invalidParams : RpcErr
  | nodeAlreadyAdded : RpcErr
  | nodeNotAdded : RpcErr
  | nodeNotConnected : RpcErr
  | miscError : RpcErr
deriving DecidableEq, Repr

/-- std::string::find(needle) != npos — needle occurs as a contiguous
substring of hay (the empty needle occurs in every string, as in C++). -/
def strFind (hay needle : String) : Bool :=
  (List.range (hay.data.length + 1)).any fun i => needle.data.isPrefixOf (hay.data.drop i)

/-- One address-book entry's exported statistics (CDestinationStats). -/
structure CDestinationStats where
  sAddress : String
  sSource : String
  sBase64 : String
  fInTried : Bool
  nAttempts : Int
  nLastTry : Int
  nSuccessTime : Int
deriving DecidableEq, Repr

/-- Modelled from the spec: addrman.CopyDestinationStats copies every
address-book entry's stats into the vector and returns the total size of
the address hash map (the address book's total entry count).  The address
manager itself is modelled as the list of its entries. -/
def CopyDestinationStats (addrman : List CDestinationStats) :
    List CDestinationStats × Int :=
  (addrman, (addrman.length : Int))

/-- The filter selected by the first argument of the destination command
(lines 115-140 of rpcnet.cpp): none, match S, good, attempt or connect. -/
inductive DestFilter where
  | noFilter : DestFilter
  | matchStr : String → DestFilter
  | good : DestFilter
  | attempt : DestFilter
  | connect : DestFilter
deriving DecidableEq, Repr

/-- The per-entry match test of the destination loop (lines 152-168):
fMatchFound after the filter cascade for one stats record. -/
def destMatch (f : DestFilter) (stats : CDestinationStats) : Bool :=
  match f with
  | .noFilter => true
  | .matchStr s =>
      strFind stats.sAddress s || strFind stats.sSource s || strFind stats.sBase64 s
  | .good => stats.fInTried
  | .attempt => stats.nAttempts > 0
  | .connect => stats.nSuccessTime > 0

/-- The match object built on the second pass (lines 171-182); base64 is
included only when a filter argument was supplied (fSelectedMatch). -/
def destMatchObj (fSelectedMatch : Bool) (stats : CDestinationStats) : JVal :=
  .obj ([("address", .str stats.sAddress),
         ("good", .bool stats.fInTried),
         ("attempt", .int stats.nAttempts),
         ("lasttry", .int stats.nLastTry),
         ("connect", .int stats.nSuccessTime),
         ("source", .str stats.sSource)] ++
        (if fSelectedMatch then [("base64", .str stats.sBase64)] else []))

/-- The two-pass loop of destination (lines 148-197): pass one (i = 0)
counts the matches and pushes the sizes object first; pass two (i = 1)
emits one match object per matching entry, in table order.  Both passes
run the same filter over the same vector under one lock, so the count is
the filtered length and the emissions are the filtered map. -/
def destinationRun (f : DestFilter) (fSelectedMatch : Bool)
    (vecStats : List CDestinationStats) (nTableSize : Int) : List JVal :=
  let nMatchSize : Int := ((vecStats.filter (destMatch f)).length : Int)
  JVal.obj [("tablesize", .int nTableSize), ("matchsize", .int nMatchSize)] ::
    (vecStats.filter (destMatch f)).map (destMatchObj fSelectedMatch)

/-- The destination RPC (lines 61-202): parse the optional filter
arguments, copy the address-book stats, and either raise
RPC_INVALID_PARAMS (unknown keyword, or match with no second argument) or
return the sizes object followed by the match objects. -/
def destination (params : List JVal) (addrman : List CDestinationStats) :
    Except RpcErr (List JVal) :=
  if params.length > 2 then .error .help
  else
    let vecStats := (CopyDestinationStats addrman).1
    let nTableSize := (CopyDestinationStats addrman).2
    match params with
    | [] => .ok (destinationRun .noFilter false vecStats nTableSize)
    | p0 :: rest =>
      match p0.get_str with
      | none => .error .typeError
      | some sCmdStr =>
        if sCmdStr = "match" then
          match rest with
          | p1 :: _ =>
            match p1.get_str with
            | none => .error .typeError
            | some sMatchStr =>
                .ok (destinationRun (.matchStr sMatchStr) true vecStats nTableSize)
          | [] => .error .invalidParams
        else if sCmdStr = "good" then
          .ok (destinationRun .good true vecStats nTableSize)
        else if sCmdStr = "attempt" then
          .ok (destinationRun .attempt true vecStats nTableSize)
        else if sCmdStr = "connect" then
          .ok (destinationRun .connect true vecStats nTableSize)
        else .error .invalidParams

/-- Reads field k of the first (sizes) object of a destination result. -/
def firstObjField (ret : List JVal) (k : String) : Option JVal :=
  match ret with
  | .obj fs :: _ => fs.lookup k
  | _ => none

/-- A concrete address-book entry used in witness statements. -/
def destStatsEx : CDestinationStats := ⟨"a.b32.i2p", "s", "b64", true, 2, 3, 4⟩

/-- The concrete result of destination with no filter on a one-entry book. -/
def destRetEx : List JVal := destinationRun .noFilter false [destStatsEx] 1

/-- The concrete result of destination with the good filter on the same book. -/
def destRetExGood : List JVal := destinationRun .good true [destStatsEx] 1

/-- Result of the addnode RPC (lines 303-347): the possibly-raised error,
the added-node list after the call (unchanged when an error was thrown,
since every throw happens before any mutation), and the endpoints for
which a single outbound connection attempt was requested via
OpenNetworkConnection. -/
structure AddnodeOut where
  err : Option RpcErr
  vAddedNodes : List String
  connectAttempts : List String
deriving DecidableEq, Repr

/-- The addnode RPC (lines 303-347).  With exactly two string arguments
and a known command: onetry requests one connection attempt and leaves
the set alone; add appends the node unless the iterator search found it
(RPC_CLIENT_NODE_ALREADY_ADDED); remove erases the first occurrence the
iterator search found, or raises RPC_CLIENT_NODE_NOT_ADDED. -/
def addnode (params : List JVal) (vAddedNodes : List String) : AddnodeOut :=
  match params with
  | [p0, p1] =>
    match p1.get_str with
    | none => ⟨some .typeError, vAddedNodes, []⟩
    | some strCommand =>
      if strCommand ≠ "onetry" ∧ strCommand ≠ "add" ∧ strCommand ≠ "remove" then
        ⟨some .help, vAddedNodes, []⟩
      else
        match p0.get_str with
        | none => ⟨some .typeError, vAddedNodes, []⟩
        | some strNode =>
          if strCommand = "onetry" then ⟨none, vAddedNodes, [strNode]⟩
          else if strCommand = "add" then
            if strNode ∈ vAddedNodes then ⟨some .nodeAlreadyAdded, vAddedNodes, []⟩
            else ⟨none, vAddedNodes ++ [strNode], []⟩
          else
            if strNode ∈ vAddedNodes then ⟨none, vAddedNodes.erase strNode, []⟩
            else ⟨some .nodeNotAdded, vAddedNodes, []⟩
  | _ => ⟨some .help, vAddedNodes, []⟩

/-- Reason tag stored in a ban entry (BanReason). -/
inductive BanReason where
  | unknownReason : BanReason
  | nodeMisbehaving : BanReason
  | manuallyAdded : BanReason
deriving DecidableEq, Repr

/-- One ban-table entry (CBanEntry): ban-until and creation timestamps
plus the reason tag. -/
structure CBanEntry where
  nBanUntil : Int
  nCreateTime : Int
  banReason : BanReason
deriving DecidableEq, Repr

/-- The ban table (setBanned): a finite map from the textual subnet or
address key to its ban entry, modelled as an association list without
duplicate keys among the operations used here. -/
abbrev BanMap := List (String × CBanEntry)

/-- Modelled from the spec: CNode.IsBanned, as invoked by the setban add
guard, reports whether exactly this key is already a key of the ban
table (the add contract rejects a key that is already banned). -/
def IsBanned (banMap : BanMap) (key : String) : Bool :=
  (banMap.lookup key).isSome

/-- Modelled from the spec: CNode.Ban records a ban entry under exactly
this key; a zero or omitted duration uses the configured default offset,
and when absolute is set the duration is itself the ban-until epoch
timestamp rather than an offset from now. -/
def Ban (banMap : BanMap) (key : String) (reason : BanReason)
    (banTime : Int) (absolute : Bool) (now dflt : Int) : BanMap :=
  let banUntil := if absolute then banTime else now + (if banTime = 0 then dflt else banTime)
  (key, ⟨banUntil, now, reason⟩) :: banMap.filter (fun kv => kv.1 != key)

/-- Modelled from the spec: CNode.Unban removes the entry stored under
exactly this key, reporting whether such an entry existed. -/
def Unban (banMap : BanMap) (key : String) : Bool × BanMap :=
  ((banMap.lookup key).isSome, banMap.filter (fun kv => kv.1 != key))

/-- Result of the setban RPC: the possibly-raised error and the ban table
after the call (unchanged whenever an error was thrown, since every throw
happens before the mutation). -/
structure SetbanOut where
  err : Option RpcErr
  banMap : BanMap
deriving DecidableEq, Repr

/-- Reads params[2] as the optional bantime argument (lines 596-598):
zero when absent or null, RPC-type error when present but not numeric. -/
def setbanBanTime (rest : List JVal) : Except RpcErr Int :=
  match rest.get? 0 with
  | some p2 =>
    if p2.isNull then .ok 0
    else
      match p2.get_int64 with
      | some n => .ok n
      | none => .error .typeError
  | none => .ok 0

/-- Reads params[3] as the optional absolute flag (lines 600-602). -/
def setbanAbsolute (params : List JVal) : Except RpcErr Bool :=
  if params.length = 4 then
    match (params.get? 3).bind JVal.get_bool with
    | some b => .ok b
    | none => .error .typeError
  else .ok false

/-- The setban RPC (lines 554-618).  The input is a subnet when it
contains a slash, an address otherwise; an invalid input raises the
invalid-IP error (which rpcnet.cpp reports under code
RPC_CLIENT_NODE_ALREADY_ADDED); add rejects a key the guard finds already
banned with the same code, otherwise records the ban; remove raises
RPC_MISC_ERROR when Unban reports that no entry for the key existed.
Validity of an address or subnet string is decided by the netbase
collaborator, passed in as the predicates validAddr and validSubnet; the
disconnect-matching-peers loop and the banlist dump touch no state
modelled here. -/
def setban (params : List JVal) (banMap : BanMap)
    (validAddr validSubnet : String → Bool) (now dflt : Int) : SetbanOut :=
  match params with
  | p0 :: p1 :: rest =>
    match p1.get_str with
    | none => ⟨some .typeError, banMap⟩
    | some strCommand =>
      if params.length < 2 ∨ (strCommand ≠ "add" ∧ strCommand ≠ "remove") then
        ⟨some .help, banMap⟩
      else
        match p0.get_str with
        | none => ⟨some .typeError, banMap⟩
        | some s =>
          let isSubnet := strFind s "/"
          if ¬ (if isSubnet then validSubnet s else validAddr s) then
            ⟨some .nodeAlreadyAdded, banMap⟩
          else if strCommand = "add" then
            if IsBanned banMap s then ⟨some .nodeAlreadyAdded, banMap⟩
            else
              match setbanBanTime rest, setbanAbsolute params with
              | .ok banTime, .ok absolute =>
                  ⟨none, Ban banMap s .manuallyAdded banTime absolute now dflt⟩
              | .error e, _ => ⟨some e, banMap⟩
              | .ok _, .error e => ⟨some e, banMap⟩
          else
            let r := Unban banMap s
            if ¬ r.1 then ⟨some .miscError, banMap⟩
            else ⟨none, r.2⟩
  | _ => ⟨some .help, banMap⟩

/-- Modelled from the spec: SetNetworkActive stores the given value in
the process-wide network-active boolean read by the connection manager. -/
def SetNetworkActive (active : Bool) (_fNetworkActive : Bool) : Bool :=
  active

/-- The switchnetwork RPC (lines 461-470): SetNetworkActive(!flag), then
return the flag as re-read after the call.  Result is (new stored state,
returned value). -/
def switchnetwork (fNetworkActive : Bool) : Bool × Bool :=
  let fNetworkActive1 := SetNetworkActive (!fNetworkActive) fNetworkActive
  (fNetworkActive1, fNetworkActive1)

/-- Information about one added node as produced by GetAddedNodeInfo. -/
structure AddedNodeInfo where
  strAddedNode : String
  fConnected : Bool
  resolvedAddress : String
  fInbound : Bool
deriving DecidableEq, Repr

/-- Modelled from the spec: GetAddedNodeInfo returns one record per
member of the added-node set, in insertion order, joining each member
with its current connection status; members that are not connected are
included with fConnected false. -/
def GetAddedNodeInfo (addedNodes : List String)
    (connInfo : String → Option (String × Bool)) : List AddedNodeInfo :=
  addedNodes.map fun s =>
    match connInfo s with
    | some (addr, inbound) => ⟨s, true, addr, inbound⟩
    | none => ⟨s, false, "", false⟩

/-- The result object for one added node (lines 420-433). -/
def addedNodeObj (info : AddedNodeInfo) : JVal :=
  .obj [("addednode", .str info.strAddedNode),
        ("connected", .bool info.fConnected),
        ("addresses", .arr
          (if info.fConnected then
            [.obj [("address", .str info.resolvedAddress),
                   ("connected", .str (if info.fInbound then "inbound" else "outbound"))]]
           else []))]

/-- The getaddednodeinfo RPC (lines 371-436): with a second argument,
keep only the first record whose strAddedNode equals it or raise
RPC_CLIENT_NODE_NOT_ADDED when none matches; then render every kept
record.  The first (dns) argument is not consulted by the body. -/
def getaddednodeinfo (params : List JVal) (addedNodes : List String)
    (connInfo : String → Option (String × Bool)) : Except RpcErr (List JVal) :=
  if params.length < 1 ∨ params.length > 2 then .error .help
  else
    let vInfo := GetAddedNodeInfo addedNodes connInfo
    match params.get? 1 with
    | some p1 =>
      match p1.get_str with
      | none => .error .typeError
      | some node =>
        match vInfo.find? (fun info => info.strAddedNode == node) with
        | some info => .ok [addedNodeObj info]
        | none => .error .nodeNotAdded
    | none => .ok (vInfo.map addedNodeObj)

/-- strprintf("%016x", n): lowercase hexadecimal, zero-padded to 16. -/
def strprintf016x (n : Nat) : String :=
  let ds := Nat.toDigits 16 n
  ⟨List.replicate (16 - ds.length) '0' ++ ds⟩

/-- The per-peer snapshot copied by CopyNodeStats (CNodeStats).  The two
double-valued ping fields are modelled as rationals; getpeerinfo only
compares them with zero, which is exact on every double value. -/
structure CNodeStats where
  nodeid : Int
  addrName : String
  addrLocal : String
  nServices : Nat
  nLastSend : Int
  nLastRecv : Int
  nSendBytes : Int
  nRecvBytes : Int
  nTimeConnected : Int
  dPingTime : ℚ
  dPingWait : ℚ
  nVersion : Int
  cleanSubVer : String
  fInbound : Bool
  nStartingHeight : Int
  fWhitelisted : Bool
deriving DecidableEq, Repr

/-- The per-node sync state returned by GetNodeStateStats
(CNodeStateStats). -/
structure CNodeStateStats where
  nMisbehavior : Int
  nSyncHeight : Int
  nCommonHeight : Int
  vHeightInFlight : List Int
deriving DecidableEq, Repr

/-- One peer object of getpeerinfo (lines 261-297).  The statestats
argument is modelled from the spec: GetNodeStateStats may fail for a
peer (fStateStats false), in which case the banscore, synced_headers,
synced_blocks and inflight fields are not emitted; addrlocal is emitted
only for a non-empty local address and pingwait only for a strictly
positive ping wait. -/
def getpeerinfoObj (stats : CNodeStats) (statestats : Option CNodeStateStats) : JVal :=
  .obj (
    [("id", .int stats.nodeid),
     ("addr", .str stats.addrName)]
    ++ (if stats.addrLocal.isEmpty then [] else [("addrlocal", .str stats.addrLocal)])
    ++ [("services", .str (strprintf016x stats.nServices)),
        ("lastsend", .int stats.nLastSend),
        ("lastrecv", .int stats.nLastRecv),
        ("bytessent", .int stats.nSendBytes),
        ("bytesrecv", .int stats.nRecvBytes),
        ("conntime", .int stats.nTimeConnected),
        ("pingtime", .rat stats.dPingTime)]
    ++ (if 0 < stats.dPingWait then [("pingwait", .rat stats.dPingWait)] else [])
    ++ [("version", .int stats.nVersion),
        ("subver", .str stats.cleanSubVer),
        ("inbound", .bool stats.fInbound),
        ("startingheight", .int stats.nStartingHeight)]
    ++ (match statestats with
        | some ss =>
          [("banscore", .int ss.nMisbehavior),
           ("synced_headers", .int ss.nSyncHeight),
           ("synced_blocks", .int ss.nCommonHeight),
           ("inflight", .arr (ss.vHeightInFlight.map JVal.int))]
        | none => [])
    ++ [("whitelisted", .bool stats.fWhitelisted)])

/-- The getpeerinfo RPC (lines 217-301): one object per snapshotted peer,
each joined with its optional node state stats. -/
def getpeerinfo (peers : List (CNodeStats × Option CNodeStateStats)) : List JVal :=
  peers.map fun p => getpeerinfoObj p.1 p.2

/-- A concrete peer snapshot whose state-stats lookup failed. -/
def peerStatsEx : CNodeStats :=
  ⟨7, "9.8.7.6:26969", "1.2.3.4:26969", 1, 100, 101, 5, 6, 99, 1/2, 0,
   70015, "/Luxcore:1.0.0/", true, 12, false⟩

lemma destinationRun_shape (f : DestFilter) (sel : Bool)
    (vecStats : List CDestinationStats) (n : Int) :
    ∃ ms : List JVal,
      destinationRun f sel vecStats n =
        JVal.obj [("tablesize", .int n), ("matchsize", .int (ms.length : Int))] :: ms := by
  refine ⟨(vecStats.filter (destMatch f)).map (destMatchObj sel), ?_⟩
  simp [destinationRun]

lemma destination_ok_shape (params : List JVal)
    (addrman : List CDestinationStats) (ret : List JVal)
    (h : destination params addrman = .ok ret) :
    ∃ ms : List JVal,
      ret = JVal.obj [("tablesize", .int (addrman.length : Int)),
                      ("matchsize", .int (ms.length : Int))] :: ms := by
  simp only [destination, CopyDestinationStats] at h
  repeat' split at h
  all_goals first
    | exact Except.noConfusion h
    | (injection h with h2; rw [← h2]; exact destinationRun_shape _ _ _ _)

/-- C1: for every address-book state and every valid filter, the first
element of the array returned by destination is the sizes object, whose
tablesize is the book's entry count and whose matchsize equals the number
of match objects that follow it. -/
theorem destination_sizes_head_matchsize (params : List JVal)
    (addrman : List CDestinationStats) (ret : List JVal)
    (h : destination params addrman = .ok ret) :
    ∃ ms : List JVal,
      ret = JVal.obj [("tablesize", .int (addrman.length : Int)),
                      ("matchsize", .int (ms.length : Int))] :: ms :=
  destination_ok_shape params addrman ret h

/-- Witness for destination_sizes_head_matchsize at a concrete input. -/
theorem destination_sizes_head_matchsize_witness :
    ∃ ms : List JVal,
      destRetEx =
        JVal.obj [("tablesize", .int (([destStatsEx].length : Nat) : Int)),
                  ("matchsize", .int ((ms.length : Nat) : Int))] :: ms :=
  destination_sizes_head_matchsize [] [destStatsEx] destRetEx rfl

/-- C2: the tablesize value returned by destination equals the address
book's total entry count and is the same for every filter argument: any
two successful calls on the same address-book state report the same
tablesize, namely the entry count. -/
theorem destination_tablesize_invariant (p1 p2 : List JVal)
    (addrman : List CDestinationStats) (r1 r2 : List JVal)
    (h1 : destination p1 addrman = .ok r1)
    (h2 : destination p2 addrman = .ok r2) :
    firstObjField r1 "tablesize" = some (.int (addrman.length : Int)) ∧
    firstObjField r1 "tablesize" = firstObjField r2 "tablesize" := by
  obtain ⟨ms1, hs1⟩ := destination_ok_shape p1 addrman r1 h1
  obtain ⟨ms2, hs2⟩ := destination_ok_shape p2 addrman r2 h2
  subst hs1 hs2
  simp [firstObjField, List.lookup]

/-- Witness for destination_tablesize_invariant: a no-filter call and a
good-filter call on the same one-entry book. -/
theorem destination_tablesize_invariant_witness :
    firstObjField destRetEx "tablesize" =
      some (.int (([destStatsEx].length : Nat) : Int)) ∧
    firstObjField destRetEx "tablesize" = firstObjField destRetExGood "tablesize" :=
  destination_tablesize_invariant [] [.str "good"] [destStatsEx] destRetEx destRetExGood
    rfl rfl

/-- C3: a first argument that is none of the known filter keywords, and
the keyword match supplied without a second argument, make destination
fail with RPC_INVALID_PARAMS, returning no sizes object and no match
objects. -/
theorem destination_unknown_cmd_invalid_params (c : String) (rest : List JVal)
    (addrman : List CDestinationStats)
    (hlen : rest.length ≤ 1)
    (hc : (c ≠ "match" ∧ c ≠ "good" ∧ c ≠ "attempt" ∧ c ≠ "connect") ∨
          (c = "match" ∧ rest = [])) :
    destination (.str c :: rest) addrman = .error .invalidParams := by
  rcases hc with ⟨h1, h2, h3, h4⟩ | ⟨hm, hrest⟩
  · simp [destination, CopyDestinationStats, JVal.get_str, h1, h2, h3, h4]
    omega
  · subst hm hrest
    simp [destination, CopyDestinationStats, JVal.get_str]

/-- Witness for destination_unknown_cmd_invalid_params: the unknown
keyword bogus and a bare match both fail on a one-entry book. -/
theorem destination_unknown_cmd_invalid_params_witness :
    destination [.str "bogus"] [destStatsEx] = .error .invalidParams ∧
    destination [.str "match"] [destStatsEx] = .error .invalidParams :=
  ⟨destination_unknown_cmd_invalid_params "bogus" [] [destStatsEx] (by decide)
      (Or.inl (by refine ⟨?_, ?_, ?_, ?_⟩ <;> decide)),
   destination_unknown_cmd_invalid_params "match" [] [destStatsEx] (by decide)
      (Or.inr ⟨rfl, rfl⟩)⟩

lemma addnode_add_mem (E : String) (s : List String) (h : E ∈ s) :
    addnode [.str E, .str "add"] s = ⟨some .nodeAlreadyAdded, s, []⟩ := by
  simp [addnode, JVal.get_str, h]

lemma addnode_add_not_mem (E : String) (s : List String) (h : E ∉ s) :
    addnode [.str E, .str "add"] s = ⟨none, s ++ [E], []⟩ := by
  simp [addnode, JVal.get_str, h]

lemma addnode_remove_not_mem (E : String) (s : List String) (h : E ∉ s) :
    addnode [.str E, .str "remove"] s = ⟨some .nodeNotAdded, s, []⟩ := by
  simp [addnode, JVal.get_str, h]

lemma addnode_remove_mem (E : String) (s : List String) (h : E ∈ s) :
    addnode [.str E, .str "remove"] s = ⟨none, s.erase E, []⟩ := by
  simp [addnode, JVal.get_str, h]

/-- C6: addnode add fails with RPC_CLIENT_NODE_ALREADY_ADDED on a member
and addnode remove fails with RPC_CLIENT_NODE_NOT_ADDED on a non-member,
both leaving the set unchanged; consequently a second add of the same
endpoint always fails, and (when the endpoint occurs at most once, as the
add guard guarantees for reachable states) so does a second remove. -/
theorem addnode_double_add_remove (E : String) (s : List String) :
    (E ∈ s → addnode [.str E, .str "add"] s = ⟨some .nodeAlreadyAdded, s, []⟩) ∧
    (E ∉ s → addnode [.str E, .str "remove"] s = ⟨some .nodeNotAdded, s, []⟩) ∧
    (addnode [.str E, .str "add"]
        (addnode [.str E, .str "add"] s).vAddedNodes).err = some .nodeAlreadyAdded ∧
    (s.count E ≤ 1 →
      (addnode [.str E, .str "remove"]
          (addnode [.str E, .str "remove"] s).vAddedNodes).err = some .nodeNotAdded) := by
  refine ⟨addnode_add_mem E s, addnode_remove_not_mem E s, ?_, ?_⟩
  · by_cases h : E ∈ s
    · rw [addnode_add_mem E s h]
      simp [addnode_add_mem E s h]
    · rw [addnode_add_not_mem E s h]
      have h2 : E ∈ s ++ [E] := by simp
      simp [addnode_add_mem E (s ++ [E]) h2]
  · intro hcount
    by_cases h : E ∈ s
    · rw [addnode_remove_mem E s h]
      have h2 : E ∉ s.erase E := by
        intro hmem
        have := List.count_pos_iff.mpr hmem
        rw [List.count_erase_self] at this
        omega
      simp [addnode_remove_not_mem E (s.erase E) h2]
    · rw [addnode_remove_not_mem E s h]
      simp [addnode_remove_not_mem E s h]

/-- Witness for addnode_double_add_remove at a concrete endpoint and set. -/
theorem addnode_double_add_remove_witness :
    addnode [.str "1.2.3.4:26969", .str "add"] ["1.2.3.4:26969"] =
      ⟨some .nodeAlreadyAdded, ["1.2.3.4:26969"], []⟩ ∧
    addnode [.str "5.6.7.8:26969", .str "remove"] ["1.2.3.4:26969"] =
      ⟨some .nodeNotAdded, ["1.2.3.4:26969"], []⟩ ∧
    (addnode [.str "5.6.7.8:26969", .str "remove"]
        (addnode [.str "5.6.7.8:26969", .str "remove"] ["1.2.3.4:26969"]).vAddedNodes).err =
      some .nodeNotAdded :=
  ⟨(addnode_double_add_remove "1.2.3.4:26969" ["1.2.3.4:26969"]).1 (by decide),
   (addnode_double_add_remove "5.6.7.8:26969" ["1.2.3.4:26969"]).2.1 (by decide),
   (addnode_double_add_remove "5.6.7.8:26969" ["1.2.3.4:26969"]).2.2.2 (by decide)⟩

/-- C9: addnode onetry leaves the added-node set unchanged and requests
exactly one outbound connection attempt for the endpoint, whether or not
the endpoint is a member of the set. -/
theorem addnode_onetry_frame (E : String) (s : List String) :
    addnode [.str E, .str "onetry"] s = ⟨none, s, [E]⟩ := by
  simp [addnode, JVal.get_str]

/-- C4: setban add fails on an input the netbase collaborator rejects as
neither a valid address nor a valid CIDR subnet, fails when exactly that
key is already a key of the ban table, and succeeds on any valid input
whose exact key is absent — in particular on an address that is merely
covered by some other banned subnet, since the add guard consults only
the exact key. -/
theorem setban_add_validation (s : String) (banMap : BanMap)
    (validAddr validSubnet : String → Bool) (now dflt : Int) :
    ((if strFind s "/" then validSubnet s else validAddr s) = false →
      setban [.str s, .str "add"] banMap validAddr validSubnet now dflt =
        ⟨some .nodeAlreadyAdded, banMap⟩) ∧
    ((if strFind s "/" then validSubnet s else validAddr s) = true →
      (banMap.lookup s).isSome = true →
      setban [.str s, .str "add"] banMap validAddr validSubnet now dflt =
        ⟨some .nodeAlreadyAdded, banMap⟩) ∧
    ((if strFind s "/" then validSubnet s else validAddr s) = true →
      banMap.lookup s = none →
      setban [.str s, .str "add"] banMap validAddr validSubnet now dflt =
        ⟨none, Ban banMap s .manuallyAdded 0 false now dflt⟩) := by
  refine ⟨?_, ?_, ?_⟩
  · intro hvalid
    simp [setban, JVal.get_str, hvalid]
  · intro hvalid hmem
    simp [setban, JVal.get_str, hvalid, IsBanned, hmem]
  · intro hvalid habsent
    simp [setban, JVal.get_str, hvalid, IsBanned, habsent, setbanBanTime, setbanAbsolute]

/-- Witness for setban_add_validation: an invalid literal is rejected, an
exact key already in the table is rejected, and an address covered by a
banned subnet but not itself a key is accepted. -/
theorem setban_add_validation_witness :
    setban [.str "not an ip", .str "add"] [] (fun _ => false) (fun _ => false) 0 86400 =
      ⟨some .nodeAlreadyAdded, []⟩ ∧
    setban [.str "10.0.0.0/24", .str "add"] [("10.0.0.0/24", ⟨86400, 0, .manuallyAdded⟩)]
        (fun _ => true) (fun _ => true) 0 86400 =
      ⟨some .nodeAlreadyAdded, [("10.0.0.0/24", ⟨86400, 0, .manuallyAdded⟩)]⟩ ∧
    setban [.str "10.0.0.7", .str "add"] [("10.0.0.0/24", ⟨86400, 0, .manuallyAdded⟩)]
        (fun _ => true) (fun _ => true) 0 86400 =
      ⟨none, Ban [("10.0.0.0/24", ⟨86400, 0, .manuallyAdded⟩)] "10.0.0.7"
              .manuallyAdded 0 false 0 86400⟩ :=
  ⟨(setban_add_validation "not an ip" [] (fun _ => false) (fun _ => false) 0 86400).1
      (by decide),
   (setban_add_validation "10.0.0.0/24" [("10.0.0.0/24", ⟨86400, 0, .manuallyAdded⟩)]
      (fun _ => true) (fun _ => true) 0 86400).2.1 (by decide) (by decide),
   (setban_add_validation "10.0.0.7" [("10.0.0.0/24", ⟨86400, 0, .manuallyAdded⟩)]
      (fun _ => true) (fun _ => true) 0 86400).2.2 (by decide) (by decide)⟩

/-- C5 counterexample: removing a valid address that has no ban-table
entry raises RPC_MISC_ERROR (the generic operation-failed code), not
RPC_CLIENT_NODE_NOT_ADDED, the code rpcnet.cpp uses for the
NodeNotPresent failure kind. -/
theorem setban_remove_missing_cex :
    setban [.str "1.2.3.4", .str "remove"] [] (fun _ => true) (fun _ => true) 0 86400 =
      ⟨some .miscError, []⟩ ∧ RpcErr.miscError ≠ RpcErr.nodeNotAdded := by
  exact ⟨rfl, by decide⟩

/-- C5 amended: for every ban-table state and every syntactically valid
key with no entry in the table, setban remove fails with the generic
RPC_MISC_ERROR operation-failed code, and the ban table is unchanged by
the failed call. -/
theorem setban_remove_missing_misc (s : String) (banMap : BanMap)
    (validAddr validSubnet : String → Bool) (now dflt : Int)
    (hvalid : (if strFind s "/" then validSubnet s else validAddr s) = true)
    (habsent : banMap.lookup s = none) :
    setban [.str s, .str "remove"] banMap validAddr validSubnet now dflt =
      ⟨some .miscError, banMap⟩ := by
  simp [setban, JVal.get_str, hvalid, Unban, habsent]

/-- Witness for setban_remove_missing_misc at a concrete valid subnet
absent from a nonempty table. -/
theorem setban_remove_missing_misc_witness :
    setban [.str "10.0.0.0/24", .str "remove"] [("10.1.0.0/16", ⟨86400, 0, .manuallyAdded⟩)]
        (fun _ => true) (fun _ => true) 0 86400 =
      ⟨some .miscError, [("10.1.0.0/16", ⟨86400, 0, .manuallyAdded⟩)]⟩ :=
  setban_remove_missing_misc "10.0.0.0/24" [("10.1.0.0/16", ⟨86400, 0, .manuallyAdded⟩)]
    (fun _ => true) (fun _ => true) 0 86400 (by decide) (by decide)

/-- C7: switchnetwork negates the stored boolean and returns the new
value; two successive calls return complementary values, the second call
returning the original pre-toggle state. -/
theorem switchnetwork_toggle (b : Bool) :
    (switchnetwork b).1 = !b ∧
    (switchnetwork b).2 = !b ∧
    (switchnetwork (switchnetwork b).1).2 = b ∧
    (switchnetwork (switchnetwork b).1).2 = !(switchnetwork b).2 := by
  cases b <;> simp [switchnetwork, SetNetworkActive]

lemma GetAddedNodeInfo_names (addedNodes : List String)
    (connInfo : String → Option (String × Bool)) :
    ∀ info ∈ GetAddedNodeInfo addedNodes connInfo, info.strAddedNode ∈ addedNodes := by
  intro info hinfo
  simp only [GetAddedNodeInfo, List.mem_map] at hinfo
  obtain ⟨s, hs, rfl⟩ := hinfo
  rcases hcs : connInfo s with _ | ⟨addr, inbound⟩ <;> simp [hcs, hs]

/-- C8: getaddednodeinfo with a node argument absent from the added-node
set fails with RPC_CLIENT_NODE_NOT_ADDED; with no node argument it
returns one object per added node, connected or not; with a member node
argument it returns exactly that node's single object. -/
theorem getaddednodeinfo_lookup (addedNodes : List String)
    (connInfo : String → Option (String × Bool)) (dns : JVal) (node : String) :
    (node ∉ addedNodes →
      getaddednodeinfo [dns, .str node] addedNodes connInfo = .error .nodeNotAdded) ∧
    (getaddednodeinfo [dns] addedNodes connInfo =
        .ok ((GetAddedNodeInfo addedNodes connInfo).map addedNodeObj) ∧
      ((GetAddedNodeInfo addedNodes connInfo).map addedNodeObj).length =
        addedNodes.length) ∧
    (node ∈ addedNodes →
      ∃ info ∈ GetAddedNodeInfo addedNodes connInfo,
        info.strAddedNode = node ∧
        getaddednodeinfo [dns, .str node] addedNodes connInfo = .ok [addedNodeObj info]) := by
  refine ⟨?_, ⟨?_, ?_⟩, ?_⟩
  · intro habs
    have hfind : (GetAddedNodeInfo addedNodes connInfo).find?
        (fun info => info.strAddedNode == node) = none := by
      rw [List.find?_eq_none]
      intro info hinfo heq
      rw [beq_iff_eq] at heq
      exact habs (heq ▸ GetAddedNodeInfo_names addedNodes connInfo info hinfo)
    simp [getaddednodeinfo, JVal.get_str, hfind]
  · simp [getaddednodeinfo]
  · simp [GetAddedNodeInfo]
  · intro hmem
    have hex : ∃ x ∈ GetAddedNodeInfo addedNodes connInfo,
        (x.strAddedNode == node) = true := by
      refine ⟨(match connInfo node with
               | some (addr, inbound) => ⟨node, true, addr, inbound⟩
               | none => ⟨node, false, "", false⟩), ?_, ?_⟩
      · simp only [GetAddedNodeInfo, List.mem_map]
        exact ⟨node, hmem, rfl⟩
      · rcases hcs : connInfo node with _ | ⟨addr, inbound⟩ <;> simp [hcs]
    rcases hfind : (GetAddedNodeInfo addedNodes connInfo).find?
        (fun info => info.strAddedNode == node) with _ | info0
    · exfalso
      obtain ⟨x, hx, hpx⟩ := hex
      exact absurd hpx (by simpa using List.find?_eq_none.mp hfind x hx)
    · refine ⟨info0, List.mem_of_find?_eq_some hfind, ?_, ?_⟩
      · have := List.find?_some hfind
        simpa using this
      · simp [getaddednodeinfo, JVal.get_str, hfind]

/-- Witness for getaddednodeinfo_lookup: a two-node set, one connected
and one not, queried with an absent node, with no node, and with the
unconnected member. -/
theorem getaddednodeinfo_lookup_witness :
    getaddednodeinfo [.bool true, .str "7.7.7.7:26969"]
        ["1.2.3.4:26969", "5.6.7.8:26969"]
        (fun s => if s = "1.2.3.4:26969" then some ("1.2.3.4:26969", false) else none) =
      .error .nodeNotAdded ∧
    getaddednodeinfo [.bool true] ["1.2.3.4:26969", "5.6.7.8:26969"]
        (fun s => if s = "1.2.3.4:26969" then some ("1.2.3.4:26969", false) else none) =
      .ok ((GetAddedNodeInfo ["1.2.3.4:26969", "5.6.7.8:26969"]
          (fun s => if s = "1.2.3.4:26969" then some ("1.2.3.4:26969", false) else none)).map
            addedNodeObj) ∧
    (∃ info ∈ GetAddedNodeInfo ["1.2.3.4:26969", "5.6.7.8:26969"]
          (fun s => if s = "1.2.3.4:26969" then some ("1.2.3.4:26969", false) else none),
        info.strAddedNode = "5.6.7.8:26969" ∧
        getaddednodeinfo [.bool true, .str "5.6.7.8:26969"]
            ["1.2.3.4:26969", "5.6.7.8:26969"]
            (fun s => if s = "1.2.3.4:26969" then some ("1.2.3.4:26969", false) else none) =
          .ok [addedNodeObj info]) :=
  ⟨(getaddednodeinfo_lookup ["1.2.3.4:26969", "5.6.7.8:26969"]
      (fun s => if s = "1.2.3.4:26969" then some ("1.2.3.4:26969", false) else none)
      (.bool true) "7.7.7.7:26969").1 (by decide),
   ((getaddednodeinfo_lookup ["1.2.3.4:26969", "5.6.7.8:26969"]
      (fun s => if s = "1.2.3.4:26969" then some ("1.2.3.4:26969", false) else none)
      (.bool true) "7.7.7.7:26969").2.1).1,
   (getaddednodeinfo_lookup ["1.2.3.4:26969", "5.6.7.8:26969"]
      (fun s => if s = "1.2.3.4:26969" then some ("1.2.3.4:26969", false) else none)
      (.bool true) "5.6.7.8:26969").2.2 (by decide)⟩

/-- C10 counterexample: the peer object for a peer whose node-state-stats
lookup failed does not contain the banscore field (nor, by the same
branch, synced_headers, synced_blocks or inflight), so not every field
other than addrlocal and pingwait is always present. -/
theorem getpeerinfo_banscore_missing_cex :
    "banscore" ∉ (getpeerinfoObj peerStatsEx Option.none).objKeys ∧
    "banscore" ∈ (getpeerinfoObj peerStatsEx
      (some ⟨0, 10, 9, [11]⟩)).objKeys := by
  constructor <;> decide

/-- C10 amended: in every peer object, addrlocal is present iff the local
address is non-empty and pingwait iff the ping wait is strictly positive;
the banscore, synced_headers, synced_blocks and inflight fields are
present iff the node-state-stats lookup succeeded; every other listed
field is always present. -/
theorem getpeerinfo_optional_fields (stats : CNodeStats)
    (ss : Option CNodeStateStats) :
    (("addrlocal" ∈ (getpeerinfoObj stats ss).objKeys) ↔ stats.addrLocal.isEmpty = false) ∧
    (("pingwait" ∈ (getpeerinfoObj stats ss).objKeys) ↔ 0 < stats.dPingWait) ∧
    ("id" ∈ (getpeerinfoObj stats ss).objKeys ∧
     "addr" ∈ (getpeerinfoObj stats ss).objKeys ∧
     "services" ∈ (getpeerinfoObj stats ss).objKeys ∧
     "lastsend" ∈ (getpeerinfoObj stats ss).objKeys ∧
     "lastrecv" ∈ (getpeerinfoObj stats ss).objKeys ∧
     "bytessent" ∈ (getpeerinfoObj stats ss).objKeys ∧
     "bytesrecv" ∈ (getpeerinfoObj stats ss).objKeys ∧
     "conntime" ∈ (getpeerinfoObj stats ss).objKeys ∧
     "pingtime" ∈ (getpeerinfoObj stats ss).objKeys ∧
     "version" ∈ (getpeerinfoObj stats ss).objKeys ∧
     "subver" ∈ (getpeerinfoObj stats ss).objKeys ∧
     "inbound" ∈ (getpeerinfoObj stats ss).objKeys ∧
     "startingheight" ∈ (getpeerinfoObj stats ss).objKeys ∧
     "whitelisted" ∈ (getpeerinfoObj stats ss).objKeys) ∧
    (("banscore" ∈ (getpeerinfoObj stats ss).objKeys) ↔ ss.isSome = true) ∧
    (("synced_headers" ∈ (getpeerinfoObj stats ss).objKeys) ↔ ss.isSome = true) ∧
    (("synced_blocks" ∈ (getpeerinfoObj stats ss).objKeys) ↔ ss.isSome = true) ∧
    (("inflight" ∈ (getpeerinfoObj stats ss).objKeys) ↔ ss.isSome = true) := by
  cases ss <;> cases hloc : stats.addrLocal.isEmpty <;>
    by_cases hpw : 0 < stats.dPingWait <;>
      simp [getpeerinfoObj, JVal.objKeys, hloc, hpw]
